import Mathlib

/-!
Shallow embedding of `src/TaskF/task_f.py` (interactive electricity
consumption/production analysis program).

Modelling conventions:
* Python `float` values are modelled as rationals (`ℚ`).  Where every
  arithmetic step of a claim is exact in IEEE-754 binary64 (or no arithmetic
  happens), exact rational arithmetic is used; where rounding matters, the
  per-operation binary64 rounding is modelled explicitly by `roundB64`
  (round to nearest, ties to even, including the subnormal range).
* Python `datetime.datetime` is modelled as a record of calendar fields;
  comparison is via a mixed-radix key, which agrees with chronological order
  on valid datetimes.  All timestamps in this program are naive (the code
  attaches one shared `tzinfo` to both the data and every range bound, so the
  timezone never influences a comparison and is dropped from the model).
* The input file is modelled as the list of its lines (without trailing
  newlines); interactive input is modelled as the list of strings the user
  enters (post-`strip`); the filesystem is an association list from filename
  to file lines.
* `datetime.fromisoformat` / `float` / `strptime("%d.%m.%Y")` are modelled on
  the naive, non-exponent, non-underscore forms relevant to this data format;
  unsupported forms are rejected (`none`), matching a `ValueError`.
* A Python exception escaping a function is modelled by an explicit failure
  value (`Option`/a `crashed` flag), as noted at each definition.
-/

/-- Model of `datetime.datetime`: a naive calendar timestamp. -/
structure DateTime where
  year : ℕ
  month : ℕ
  day : ℕ
  hour : ℕ
  minute : ℕ
  second : ℕ
  microsecond : ℕ
deriving DecidableEq, Repr

/-- Mixed-radix key; on valid datetimes it orders exactly like Python's
`datetime` comparison (lexicographic on the fields). -/
def DateTime.key (t : DateTime) : ℕ :=
  (((((t.year * 13 + t.month) * 32 + t.day) * 24 + t.hour) * 60 + t.minute) * 60 + t.second)
    * 1000000 + t.microsecond

/-- Model of `a <= b` on `datetime` values. -/
def DateTime.le (a b : DateTime) : Bool :=
  decide (a.key ≤ b.key)

/-- Model of `calendar.isleap(year)`. -/
def isleap (y : ℕ) : Bool :=
  y % 4 == 0 && (y % 100 != 0 || y % 400 == 0)

/-- Model of `calendar.mdays` (index 0 unused). -/
def mdays : List ℕ := [0, 31, 28, 31, 30, 31, 30, 31, 31, 30, 31, 30, 31]

/-- Model of `calendar.monthrange(year, month)[1]`: the number of days in the
month, accounting for leap years. -/
def monthrangeDays (y m : ℕ) : ℕ :=
  mdays.getD m 0 + (if m == 2 && isleap y then 1 else 0)

/-- Model of `calendar.month_name` (index 0 is the empty string). -/
def month_name : List String :=
  ["", "January", "February", "March", "April", "May", "June", "July",
   "August", "September", "October", "November", "December"]

/-! Character-level utilities used by the parsers. -/

/-- Value of a decimal digit character, if it is one. -/
def charDigit? (c : Char) : Option ℕ :=
  if '0' ≤ c ∧ c ≤ '9' then some (c.toNat - 48) else none

/-- Accumulating decimal value of a digit string (most significant first). -/
def digitsValAux : List Char → ℕ → Option ℕ
  | [], acc => some acc
  | c :: t, acc =>
    match charDigit? c with
    | some d => digitsValAux t (acc * 10 + d)
    | none => none

/-- Decimal value of a nonempty all-digit character list; `none` otherwise. -/
def digitsVal? (cs : List Char) : Option ℕ :=
  match cs with
  | [] => none
  | _ => digitsValAux cs 0

/-- Split a character list on a separator character, keeping empty groups,
modelling Python's `str.split(sep)`. -/
def splitChar (sep : Char) : List Char → List (List Char)
  | [] => [[]]
  | c :: rest =>
    match splitChar sep rest with
    | [] => [[c]]
    | g :: gs => if c == sep then [] :: g :: gs else (c :: g) :: gs

/-- Model of `line.split(";")` at the string level. -/
def splitSemi (s : String) : List String :=
  (splitChar ';' s.data).map String.mk

/-- Model of `value.replace(",", ".")` (single-character replacement). -/
def replaceCommaDot (s : String) : String :=
  String.mk (s.data.map fun c => if c == ',' then '.' else c)

/-- Decimal digit list of `n`, least significant first, with explicit fuel
(`fuel ≥ n` suffices). -/
def natDigitsAux : ℕ → ℕ → List ℕ
  | 0, _ => []
  | fuel + 1, n => if n = 0 then [] else n % 10 :: natDigitsAux fuel (n / 10)

/-- Decimal rendering of a natural number, as produced by Python's string
formatting of a nonnegative integer. -/
def natRepr (n : ℕ) : String :=
  if n = 0 then "0"
  else String.mk (((natDigitsAux n n).reverse).map fun d => Char.ofNat (48 + d))

/-- Zero-pad a decimal rendering to the given width (for `strftime`). -/
def padNat (w n : ℕ) : String :=
  String.mk (List.replicate (w - (natRepr n).data.length) '0' ++ (natRepr n).data)

/-! Model of `datetime.fromisoformat` on naive timestamps of the forms
`YYYY-MM-DD`, optionally followed by `T` or a space and `HH`, `HH:MM`,
`HH:MM:SS` or `HH:MM:SS.f{1,6}`.  Timezone suffixes, which never occur in
this data format, are rejected. -/

/-- Parse the time-of-day part (after the separator) into
(hour, minute, second, microsecond). -/
def parseIsoTime : List Char → Option (ℕ × ℕ × ℕ × ℕ)
  | [h1, h2] => do
    let h ← digitsVal? [h1, h2]
    pure (h, 0, 0, 0)
  | [h1, h2, ':', m1, m2] => do
    let h ← digitsVal? [h1, h2]
    let mi ← digitsVal? [m1, m2]
    pure (h, mi, 0, 0)
  | h1 :: h2 :: ':' :: m1 :: m2 :: ':' :: s1 :: s2 :: rest => do
    let h ← digitsVal? [h1, h2]
    let mi ← digitsVal? [m1, m2]
    let s ← digitsVal? [s1, s2]
    match rest with
    | [] => pure (h, mi, s, 0)
    | '.' :: frac => do
      if frac.length < 1 ∨ 6 < frac.length then none
      else do
        let f ← digitsVal? frac
        pure (h, mi, s, f * 10 ^ (6 - frac.length))
    | _ => none
  | _ => none

/-- Model of `datetime.fromisoformat`; `none` models a `ValueError`. -/
def parseIso (s : String) : Option DateTime :=
  match s.data with
  | y1 :: y2 :: y3 :: y4 :: '-' :: m1 :: m2 :: '-' :: d1 :: d2 :: rest => do
    let y ← digitsVal? [y1, y2, y3, y4]
    let m ← digitsVal? [m1, m2]
    let d ← digitsVal? [d1, d2]
    let t ← match rest with
      | [] => some (0, 0, 0, 0)
      | sep :: timeChars =>
        if sep == 'T' || sep == ' ' then parseIsoTime timeChars else none
    if 1 ≤ y ∧ 1 ≤ m ∧ m ≤ 12 ∧ 1 ≤ d ∧ d ≤ monthrangeDays y m ∧
        t.1 ≤ 23 ∧ t.2.1 ≤ 59 ∧ t.2.2.1 ≤ 59 then
      some ⟨y, m, d, t.1, t.2.1, t.2.2.1, t.2.2.2⟩
    else none
  | _ => none

/-- Model of Python's `float(s)` on plain decimal literals (optional sign,
digits with an optional decimal point); `none` models a `ValueError`. -/
def parsePyFloat (s : String) : Option ℚ :=
  let (neg, body) :=
    match s.data with
    | '-' :: t => (true, t)
    | '+' :: t => (false, t)
    | t => (false, t)
  match splitChar '.' body with
  | [as] => (digitsVal? as).map fun n => if neg then -(n : ℚ) else (n : ℚ)
  | [as, bs] =>
    if as.isEmpty && bs.isEmpty then none
    else do
      let ip ← if as.isEmpty then some 0 else digitsVal? as
      let fp ← if bs.isEmpty then some 0 else digitsVal? bs
      let v : ℚ := (ip : ℚ) + (fp : ℚ) / (10 ^ bs.length : ℚ)
      pure (if neg then -v else v)
  | _ => none

/-! Loading data: `fetch_electricity_data` and `convert_electricity_data`
(task_f.py lines 20-69). -/

/-- Model of one parsed data row: the four typed fields appended by
`convert_electricity_data`. -/
structure Reading where
  timestamp : DateTime
  netto_consumption : ℚ
  netto_production : ℚ
  temperature : ℚ
deriving DecidableEq, Repr

/-- Model of `convert_electricity_data(fields)`: reads fields 0-3, converting
the timestamp with `fromisoformat` and the numerics with `float` after
`replace(",", ".")`.  `none` models an escaping exception (IndexError on a
missing field or ValueError on a malformed numeric). -/
def convert_electricity_data (fields : List String) : Option Reading := do
  let f0 ← fields[0]?
  let f1 ← fields[1]?
  let f2 ← fields[2]?
  let f3 ← fields[3]?
  let ts ← parseIso f0
  let c ← parsePyFloat (replaceCommaDot f1)
  let p ← parsePyFloat (replaceCommaDot f2)
  let t ← parsePyFloat (replaceCommaDot f3)
  pure ⟨ts, c, p, t⟩

/-- Loop of `fetch_electricity_data`: for each line, split on `;`; if the
first field fails `fromisoformat` the line is skipped (header handling);
otherwise the line is converted and appended.  An exception escaping
`convert_electricity_data` reaches the outer `except Exception` handler,
which discards everything accumulated and returns the empty list. -/
def fetchAux : List String → List Reading → List Reading
  | [], acc => acc
  | line :: rest, acc =>
    let fields := splitSemi line
    match parseIso (fields.getD 0 "") with
    | none => fetchAux rest acc
    | some _ =>
      match convert_electricity_data fields with
      | some r => fetchAux rest (acc ++ [r])
      | none => []

/-- Model of `fetch_electricity_data` over the file's lines (the file-level
FileNotFoundError / PermissionError branches, which also return `[]`, are
outside this model: the file is given as its lines). -/
def fetch_electricity_data (lines : List String) : List Reading :=
  fetchAux lines []

/-! Calculation functions (task_f.py lines 176-203). -/

/-- Model of the inclusion test `start_date <= timestamp <= end_date`. -/
def in_range (s e t : DateTime) : Bool :=
  DateTime.le s t && DateTime.le t e

/-- Model of `calculate_total_consumption` in exact arithmetic: the loop's
`total += entry[1]` is taken as exact rational addition.  Faithful whenever
every partial sum is exactly representable as a binary64 double (as in the
concrete end-to-end scenario) and for rounding-free facts such as the
empty-range case; `calculate_total_consumption_float` models the same loop
with the per-addition binary64 rounding the program actually performs. -/
def calculate_total_consumption (data : List Reading) (s e : DateTime) : ℚ :=
  data.foldl
    (fun total entry =>
      if in_range s e entry.timestamp then total + entry.netto_consumption else total)
    0

/-- Model of `calculate_total_production` in exact arithmetic (see
`calculate_total_consumption`); `calculate_total_production_float` is the
rounding-aware variant. -/
def calculate_total_production (data : List Reading) (s e : DateTime) : ℚ :=
  data.foldl
    (fun total entry =>
      if in_range s e entry.timestamp then total + entry.netto_production else total)
    0

/-- Model of `calculate_average_temperature`: accumulates the temperature sum
and the count, returning `total / count` when `count > 0` and `0.0`
otherwise. -/
def calculate_average_temperature (data : List Reading) (s e : DateTime) : ℚ :=
  let p :=
    data.foldl
      (fun (p : ℚ × ℕ) entry =>
        if in_range s e entry.timestamp then (p.1 + entry.temperature, p.2 + 1) else p)
      (0, 0)
  if 0 < p.2 then p.1 / (p.2 : ℚ) else 0

/-! Formatting (task_f.py lines 236-238). -/

/-- Round a rational to the nearest integer, ties to even, modelling the
rounding of Python's fixed-point float formatting on exactly representable
values. -/
def roundHalfEven (q : ℚ) : ℤ :=
  let f := ⌊q⌋
  let r := q - (f : ℚ)
  if r < 1 / 2 then f
  else if 1 / 2 < r then f + 1
  else if f % 2 = 0 then f else f + 1

/-- Model of `format_float`: two-decimal fixed-point rendering with the
decimal point replaced by a comma. -/
def format_float (value : ℚ) : String :=
  let m := roundHalfEven (value * 100)
  (if value < 0 then "-" else "") ++
    natRepr (m.natAbs / 100) ++ "," ++ padNat 2 (m.natAbs % 100)

/-! Report generation (task_f.py lines 107-173). -/

/-- Model of `start_date.strftime("%d.%m.%Y")`. -/
def strfDdMmYyyy (t : DateTime) : String :=
  padNat 2 t.day ++ "." ++ padNat 2 t.month ++ "." ++ padNat 4 t.year

/-- Model of `datetime.strptime(s, "%d.%m.%Y")`: day (1-2 digits), month
(1-2 digits) and a 4-digit year separated by dots, validated exactly as the
`datetime` constructor validates them; the result is the date at midnight.
`none` models a `ValueError`. -/
def parse_ddmmyyyy (s : String) : Option DateTime :=
  match splitChar '.' s.data with
  | [ds, ms, ys] =>
    match digitsVal? ds, digitsVal? ms, digitsVal? ys with
    | some d, some m, some y =>
      if 1 ≤ ds.length ∧ ds.length ≤ 2 ∧ 1 ≤ ms.length ∧ ms.length ≤ 2 ∧
          ys.length = 4 ∧ 1 ≤ y ∧ 1 ≤ m ∧ m ≤ 12 ∧ 1 ≤ d ∧ d ≤ monthrangeDays y m then
        some ⟨y, m, d, 0, 0, 0, 0⟩
      else none
    | _, _, _ => none
  | _ => none

/-- Model of the end-date adjustment
`.replace(hour=23, minute=59, second=59, microsecond=999999)`. -/
def atEndOfDay (t : DateTime) : DateTime :=
  { t with hour := 23, minute := 59, second := 59, microsecond := 999999 }

/-- Model of a date prompt loop: consume inputs until one parses under
`%d.%m.%Y`, re-prompting on failure; `none` when input is exhausted. -/
def promptDate : List String → Option (DateTime × List String)
  | [] => none
  | i :: rest =>
    match parse_ddmmyyyy i with
    | some d => some (d, rest)
    | none => promptDate rest

/-- Range built by `create_daily_report` from the two accepted prompt dates:
start date at midnight (as parsed) and end date moved to
23:59:59.999999. -/
def daily_report_range (inputs : List String) : Option (DateTime × DateTime) := do
  let (sd, r1) ← promptDate inputs
  let (ed, _) ← promptDate r1
  pure (sd, atEndOfDay ed)

/-- Model of `create_daily_report`: the report lines it returns, together
with the inputs left unconsumed by the two date prompts. -/
def create_daily_report (data : List Reading) (inputs : List String) :
    Option (List String × List String) := do
  let (sd, r1) ← promptDate inputs
  let (ed0, r2) ← promptDate r1
  let ed := atEndOfDay ed0
  pure
    (["Daily Report for " ++ strfDdMmYyyy sd ++ " to " ++ strfDdMmYyyy ed,
      "Total Consumption: " ++ format_float (calculate_total_consumption data sd ed) ++ " kWh",
      "Total Production: " ++ format_float (calculate_total_production data sd ed) ++ " kWh",
      "Average Temperature: " ++ format_float (calculate_average_temperature data sd ed) ++ " °C"],
     r2)

/-- Model of the month prompt loop: consume inputs until one is all digits
with value between 1 and 12. -/
def promptMonth : List String → Option (ℕ × List String)
  | [] => none
  | i :: rest =>
    match digitsVal? i.data with
    | some m => if 1 ≤ m ∧ m ≤ 12 then some (m, rest) else promptMonth rest
    | none => promptMonth rest

/-- Range used by `create_monthly_report` for a given month: the code
hardcodes year 2025, `datetime(2025, month, 1, 0, 0, 0, 0)` through
`datetime(2025, month, calendar.monthrange(2025, month)[1], 23, 59, 59,
999999)`. -/
def monthly_report_range (month : ℕ) : DateTime × DateTime :=
  (⟨2025, month, 1, 0, 0, 0, 0⟩,
   ⟨2025, month, monthrangeDays 2025 month, 23, 59, 59, 999999⟩)

/-- Model of `create_monthly_report`: report lines plus unconsumed inputs. -/
def create_monthly_report (data : List Reading) (inputs : List String) :
    Option (List String × List String) := do
  let (month, rest) ← promptMonth inputs
  let r := monthly_report_range month
  pure
    (["Monthly Report for " ++ month_name.getD month "",
      "Total Consumption: " ++ format_float (calculate_total_consumption data r.1 r.2) ++ " kWh",
      "Total Production: " ++ format_float (calculate_total_production data r.1 r.2) ++ " kWh",
      "Average Temperature: " ++ format_float (calculate_average_temperature data r.1 r.2) ++ " °C"],
     rest)

/-- Range used by `create_yearly_report` (year hardcoded to 2025). -/
def yearly_report_range : DateTime × DateTime :=
  (⟨2025, 1, 1, 0, 0, 0, 0⟩, ⟨2025, 12, 31, 23, 59, 59, 999999⟩)

/-- Model of `create_yearly_report`. -/
def create_yearly_report (data : List Reading) : List String :=
  ["Yearly Report for 2025",
   "Total Consumption: " ++
     format_float (calculate_total_consumption data yearly_report_range.1 yearly_report_range.2) ++ " kWh",
   "Total Production: " ++
     format_float (calculate_total_production data yearly_report_range.1 yearly_report_range.2) ++ " kWh",
   "Average Temperature: " ++
     format_float (calculate_average_temperature data yearly_report_range.1 yearly_report_range.2) ++ " °C"]

/-! Report output and the session (task_f.py lines 83-104, 208-234, 240-272). -/

/-- Filesystem model: an association list from filename to file lines. -/
abbrev FS := List (String × List String)

/-- Model of `os.path.exists(filename)`. -/
def fileExists (fs : FS) (name : String) : Bool :=
  fs.any fun p => p.1 == name

/-- Contents of a file, if present (first binding wins). -/
def getFile (fs : FS) (name : String) : Option (List String) :=
  (fs.find? fun p => p.1 == name).map Prod.snd

/-- Model of `open(name, "w")` followed by writing all lines: replaces the
contents of `name`, creating it if absent. -/
def setFile (fs : FS) (name : String) (lines : List String) : FS :=
  if fileExists fs name then
    fs.map fun p => if p.1 == name then (name, lines) else p
  else fs ++ [(name, lines)]

/-- Model of `write_report_to_file`: unconditional overwrite of
`report.txt`. -/
def write_report_to_file (fs : FS) (lines : List String) : FS :=
  setFile fs "report.txt" lines

/-- Candidate filename scanned by `create_report_file`. -/
def reportFileName (n : ℕ) : String :=
  "report_" ++ natRepr n ++ ".txt"

/-- Scan loop of `create_report_file`: starting from `counter`, return the
first index whose filename does not exist.  The Python loop is unbounded;
`fuel` is an explicit bound, and `fs.length + 1` steps always suffice (the
candidate names are pairwise distinct, so one of the first `fs.length + 1`
is free). -/
def firstFreeReport (fs : FS) : ℕ → ℕ → ℕ
  | counter, 0 => counter
  | counter, fuel + 1 =>
    if fileExists fs (reportFileName counter) then firstFreeReport fs (counter + 1) fuel
    else counter

/-- Model of `create_report_file`: writes the report to `report_<n>.txt` for
the first free `n` starting at 1, returning the new filesystem and the
chosen filename. -/
def create_report_file (fs : FS) (lines : List String) : FS × String :=
  let n := firstFreeReport fs 1 (fs.length + 1)
  (setFile fs (reportFileName n) lines, reportFileName n)

/-- Model of `show_report_menu`.  `writeOk` models whether the environment
lets the `report.txt` write succeed (an `IOError` is raised otherwise; the
code has no handler for it, so it escapes — modelled by the final `Bool`
component, `true` meaning the exception propagated out of the menu).
Returns the filesystem, the unconsumed inputs and the crash flag.  Input
exhaustion (Python would block or raise `EOFError`) is also modelled as a
crash. -/
def show_report_menu (writeOk : Bool) (lines : List String) :
    List String → FS → FS × List String × Bool
  | [], fs => (fs, [], true)
  | sel :: rest, fs =>
    if sel = "1" then
      if writeOk then (write_report_to_file fs lines, rest, false)
      else (fs, rest, true)
    else if sel = "2" then ((create_report_file fs lines).1, rest, false)
    else if sel = "3" then (fs, rest, false)
    else show_report_menu writeOk lines rest fs

/-- One observable output line of the session; the model records the
"Main Menu:" header printed by `show_main_menu`, the report lines printed by
`print_report_to_console`, and the terminal messages of `main`.  (Other
prompt/confirmation prints are elided; no claim inspects them.) -/
def mainMenuHeader : String := "Main Menu:"

/-- Menu loop of `main`.  Each iteration prints the main menu, consumes one
selection and dispatches; invalid selections re-prompt.  `fuel` bounds the
number of iterations (each iteration consumes at least one input, so
`inputs.length + 1` suffices); running out of fuel or of input is modelled
as a crash, like `show_report_menu`.  Returns the printed output, the final
filesystem and the crash flag. -/
def mainLoop (data : List Reading) (writeOk : Bool) :
    ℕ → FS → List String → List String × FS × Bool
  | 0, fs, _ => ([], fs, true)
  | _ + 1, fs, [] => ([mainMenuHeader], fs, true)
  | fuel + 1, fs, sel :: rest =>
    if sel = "4" then ([mainMenuHeader], fs, false)
    else if sel = "1" then
      match create_daily_report data rest with
      | none => ([mainMenuHeader], fs, true)
      | some (lines, rest2) =>
        let m := show_report_menu writeOk lines rest2 fs
        if m.2.2 then (mainMenuHeader :: lines, m.1, true)
        else
          let k := mainLoop data writeOk fuel m.1 m.2.1
          (mainMenuHeader :: lines ++ k.1, k.2.1, k.2.2)
    else if sel = "2" then
      match create_monthly_report data rest with
      | none => ([mainMenuHeader], fs, true)
      | some (lines, rest2) =>
        let m := show_report_menu writeOk lines rest2 fs
        if m.2.2 then (mainMenuHeader :: lines, m.1, true)
        else
          let k := mainLoop data writeOk fuel m.1 m.2.1
          (mainMenuHeader :: lines ++ k.1, k.2.1, k.2.2)
    else if sel = "3" then
      let lines := create_yearly_report data
      let m := show_report_menu writeOk lines rest fs
      if m.2.2 then (mainMenuHeader :: lines, m.1, true)
      else
        let k := mainLoop data writeOk fuel m.1 m.2.1
        (mainMenuHeader :: lines ++ k.1, k.2.1, k.2.2)
    else
      let k := mainLoop data writeOk fuel fs rest
      (mainMenuHeader :: k.1, k.2.1, k.2.2)

/-- Model of the source's `main` (renamed: `main` is reserved in Lean):
loads the dataset from the file's lines; if it is empty, prints the no-data
message and returns without entering the menu loop; otherwise runs the menu
loop on the user inputs. -/
def mainSession (fileLines : List String) (writeOk : Bool) (inputs : List String) (fs : FS) :
    List String × FS × Bool :=
  let electricity_data := fetch_electricity_data fileLines
  if electricity_data.isEmpty then
    (["No data available to generate reports."], fs, false)
  else
    mainLoop electricity_data writeOk (inputs.length + 1) fs inputs

/-- Dataset of the end-to-end scenario: readings at 2025-01-01T00:00
(1.0, 0.5, 2.0), 2025-01-01T12:00 (2.0, 1.0, 4.0) and 2025-01-02T00:00
(3.0, 1.5, 6.0). -/
def dataC1 : List Reading :=
  [⟨⟨2025, 1, 1, 0, 0, 0, 0⟩, 1, 1 / 2, 2⟩,
   ⟨⟨2025, 1, 1, 12, 0, 0, 0⟩, 2, 1, 4⟩,
   ⟨⟨2025, 1, 2, 0, 0, 0, 0⟩, 3, 3 / 2, 6⟩]

/-- Value of a little-endian decimal digit list (used to reason about
`natDigitsAux`). -/
def ofDigitsLE : List ℕ → ℕ
  | [] => 0
  | d :: ds => d + 10 * ofDigitsLE ds

/-! Binary64 rounding.  The totals above use exact rational sums; the
program accumulates Python floats, which round after every addition.  The
following models IEEE-754 binary64 round-to-nearest-ties-to-even so that
claims sensitive to rounding can be settled against the float semantics. -/

/-- Bit length of a natural number (fuel-structural recursion):
`bitLenAux n n` is one more than the floor base-2 logarithm for `n > 0`. -/
def bitLenAux : ℕ → ℕ → ℕ
  | 0, _ => 0
  | f + 1, n => if n = 0 then 0 else bitLenAux f (n / 2) + 1

/-- Integer powers of two as rationals. -/
def qpow2 (k : ℤ) : ℚ :=
  if 0 ≤ k then ((2 : ℚ) ^ k.toNat) else 1 / ((2 : ℚ) ^ (-k).toNat)

/-- Absolute value of a rational (by numerator sign). -/
def qabs (q : ℚ) : ℚ := if q.num < 0 then -q else q

/-- Round a real (rational) value to the nearest IEEE-754 binary64 double,
ties to even: find the binade exponent `e` with `2^e ≤ |q| < 2^(e+1)` (the
bit-length estimate is exact or one too high, so one comparison corrects
it), clamp to the subnormal range, scale the significand window to the
integers, round half to even and scale back.  Overflow to infinity
(`|q|` at least `2^1024` after rounding) never occurs for this program's
data and is outside the model. -/
def roundB64 (q : ℚ) : ℚ :=
  if q = 0 then 0
  else
    let e0 : ℤ := (bitLenAux q.num.natAbs q.num.natAbs : ℤ) - (bitLenAux q.den q.den : ℤ)
    let e : ℤ := if qpow2 e0 ≤ qabs q then e0 else e0 - 1
    let k : ℤ := 52 - max e (-1022)
    (roundHalfEven (q * qpow2 k) : ℚ) * qpow2 (-k)

/-- Model of one Python float addition: exact sum, then binary64
rounding. -/
def floatAdd (a b : ℚ) : ℚ := roundB64 (a + b)

/-- Model of `calculate_total_consumption` with the program's float
semantics: `total += entry[1]` rounds to binary64 after every addition. -/
def calculate_total_consumption_float (data : List Reading) (s e : DateTime) : ℚ :=
  data.foldl
    (fun total entry =>
      if in_range s e entry.timestamp then floatAdd total entry.netto_consumption else total)
    0

/-- Model of `calculate_total_production` with the program's float
semantics. -/
def calculate_total_production_float (data : List Reading) (s e : DateTime) : ℚ :=
  data.foldl
    (fun total entry =>
      if in_range s e entry.timestamp then floatAdd total entry.netto_production else total)
    0

/-- The binary64 doubles Python holds for the literals 0.1, 0.2 and 0.3
(the values `float` produces when parsing "0,1", "0,2", "0,3"). -/
def dbl01 : ℚ := 3602879701896397 / 36028797018963968

/-- The double nearest 0.2. -/
def dbl02 : ℚ := 3602879701896397 / 18014398509481984

/-- The double nearest 0.3. -/
def dbl03 : ℚ := 5404319552844595 / 18014398509481984

/-- Dataset refuting float-level additivity: consumption and production
0.1, 0.2, 0.3 (as doubles) on three consecutive days. -/
def dataC8fl : List Reading :=
  [⟨⟨2025, 1, 1, 0, 0, 0, 0⟩, dbl01, dbl01, 0⟩,
   ⟨⟨2025, 1, 2, 0, 0, 0, 0⟩, dbl02, dbl02, 0⟩,
   ⟨⟨2025, 1, 3, 0, 0, 0, 0⟩, dbl03, dbl03, 0⟩]

/-! Lemmas about the aggregation loops. -/

theorem DateTime.le_iff (a b : DateTime) : DateTime.le a b = true ↔ a.key ≤ b.key := by
  simp [DateTime.le]


/-- Generic: a conditional-update fold leaves the accumulator unchanged when
no entry satisfies the condition. -/
theorem foldl_if_none {β : Type} (c : Reading → Bool) (g : β → Reading → β) :
    ∀ (l : List Reading) (a : β), (∀ r ∈ l, c r = false) →
      l.foldl (fun t r => if c r then g t r else t) a = a := by
  intro l
  induction l with
  | nil => intro a _; rfl
  | cons x xs ih =>
    intro a h
    have hx : c x = false := h x (List.mem_cons_self x xs)
    simp only [List.foldl_cons, hx, if_neg Bool.false_ne_true]
    exact ih a fun r hr => h r (List.mem_cons_of_mem x hr)

/-- Generic shift lemma: a conditional-accumulate fold over rationals starts
from `a` exactly as from `0` plus `a`. -/
theorem foldl_cond_add_shift (c : Reading → Bool) (w : Reading → ℚ) :
    ∀ (l : List Reading) (a : ℚ),
      l.foldl (fun t r => if c r then t + w r else t) a
        = a + l.foldl (fun t r => if c r then t + w r else t) 0 := by
  intro l
  induction l with
  | nil => intro a; simp
  | cons x xs ih =>
    intro a
    simp only [List.foldl_cons]
    rw [ih ((fun t r => if c r then t + w r else t) a x),
        ih ((fun t r => if c r then t + w r else t) 0 x)]
    show (if c x = true then a + w x else a) + _ = a + ((if c x = true then 0 + w x else 0) + _)
    split_ifs <;> ring

theorem calculate_total_consumption_cons (r : Reading) (data : List Reading) (s e : DateTime) :
    calculate_total_consumption (r :: data) s e =
      (if in_range s e r.timestamp then r.netto_consumption else 0) +
        calculate_total_consumption data s e := by
  simp only [calculate_total_consumption, List.foldl_cons]
  rw [foldl_cond_add_shift (fun x => in_range s e x.timestamp) (fun x => x.netto_consumption)]
  show (if in_range s e r.timestamp = true then 0 + r.netto_consumption else 0) + _ = _
  split_ifs <;> ring

theorem calculate_total_production_cons (r : Reading) (data : List Reading) (s e : DateTime) :
    calculate_total_production (r :: data) s e =
      (if in_range s e r.timestamp then r.netto_production else 0) +
        calculate_total_production data s e := by
  simp only [calculate_total_production, List.foldl_cons]
  rw [foldl_cond_add_shift (fun x => in_range s e x.timestamp) (fun x => x.netto_production)]
  show (if in_range s e r.timestamp = true then 0 + r.netto_production else 0) + _ = _
  split_ifs <;> ring

/-- The claim C2, stated over the embedding: a range matching no reading
yields exactly zero totals and a zero average (the `count == 0` guard takes
the `0.0` branch; no division happens). -/
theorem aggregate_empty_range :
    ∀ (data : List Reading) (s e : DateTime),
      (∀ r ∈ data, in_range s e r.timestamp = false) →
      calculate_total_consumption data s e = 0 ∧
      calculate_total_production data s e = 0 ∧
      calculate_average_temperature data s e = 0 := by
  intro data s e h
  refine ⟨?_, ?_, ?_⟩
  · exact foldl_if_none _ (fun t r => t + r.netto_consumption) data 0 h
  · exact foldl_if_none _ (fun t r => t + r.netto_production) data 0 h
  · have hp := foldl_if_none (fun r => in_range s e r.timestamp)
      (fun (p : ℚ × ℕ) r => (p.1 + r.temperature, p.2 + 1)) data (0, 0) h
    simp only [calculate_average_temperature]
    rw [hp]
    rfl

/-- Claim C8 amended: additivity of the totals holds for their exact
(infinite-precision) values — when a range is split into two disjoint
sub-ranges covering it (tested per reading timestamp), the exact sub-range
totals sum to the exact full-range total.  Under the program's IEEE-754
float accumulation the equality can fail (see
`float_totals_not_additive`). -/
theorem aggregate_totals_additive :
    ∀ (data : List Reading) (s e s1 e1 s2 e2 : DateTime),
      (∀ r ∈ data,
        in_range s e r.timestamp
            = (in_range s1 e1 r.timestamp || in_range s2 e2 r.timestamp) ∧
        (in_range s1 e1 r.timestamp && in_range s2 e2 r.timestamp) = false) →
      calculate_total_consumption data s1 e1 + calculate_total_consumption data s2 e2
          = calculate_total_consumption data s e ∧
      calculate_total_production data s1 e1 + calculate_total_production data s2 e2
          = calculate_total_production data s e := by
  intro data s e s1 e1 s2 e2 h
  induction data with
  | nil =>
    constructor <;> simp [calculate_total_consumption, calculate_total_production]
  | cons r rest ih =>
    obtain ⟨hiff, hdisj⟩ := h r (List.mem_cons_self r rest)
    have hrest := ih fun x hx => h x (List.mem_cons_of_mem r hx)
    rw [calculate_total_consumption_cons, calculate_total_consumption_cons,
        calculate_total_consumption_cons, calculate_total_production_cons,
        calculate_total_production_cons, calculate_total_production_cons, hiff]
    cases hb1 : in_range s1 e1 r.timestamp <;> cases hb2 : in_range s2 e2 r.timestamp
    · constructor <;> simp <;> linarith [hrest.1, hrest.2]
    · constructor <;> simp <;> linarith [hrest.1, hrest.2]
    · constructor <;> simp <;> linarith [hrest.1, hrest.2]
    · rw [hb1, hb2] at hdisj
      exact absurd hdisj (by decide)

set_option maxRecDepth 100000 in
unseal Rat.add Rat.mul Rat.inv Rat.sub in
/-- Counterexample to claim C8 as stated: with the program's IEEE-754 float
accumulation, the dataset with consumptions (and productions) 0.1, 0.2, 0.3
and the range 01.01.2025-03.01.2025 split after the first reading form a
disjoint covering split (first conjunct), the sub-range totals are the
doubles 0.1 and 0.5, yet their sum — whether taken as a float addition or
exactly — differs from the full-range total: the full-range accumulation
rounds to the double 0.6000000000000001 while 0.1 + 0.5 rounds to the
double 0.6. -/
theorem float_totals_not_additive :
    (∀ r ∈ dataC8fl,
      in_range ⟨2025, 1, 1, 0, 0, 0, 0⟩ ⟨2025, 1, 3, 23, 59, 59, 999999⟩ r.timestamp
          = (in_range ⟨2025, 1, 1, 0, 0, 0, 0⟩ ⟨2025, 1, 1, 23, 59, 59, 999999⟩ r.timestamp
              || in_range ⟨2025, 1, 2, 0, 0, 0, 0⟩ ⟨2025, 1, 3, 23, 59, 59, 999999⟩
                  r.timestamp) ∧
        (in_range ⟨2025, 1, 1, 0, 0, 0, 0⟩ ⟨2025, 1, 1, 23, 59, 59, 999999⟩ r.timestamp
            && in_range ⟨2025, 1, 2, 0, 0, 0, 0⟩ ⟨2025, 1, 3, 23, 59, 59, 999999⟩
                r.timestamp) = false) ∧
    calculate_total_consumption_float dataC8fl ⟨2025, 1, 1, 0, 0, 0, 0⟩
        ⟨2025, 1, 1, 23, 59, 59, 999999⟩ = dbl01 ∧
    calculate_total_consumption_float dataC8fl ⟨2025, 1, 2, 0, 0, 0, 0⟩
        ⟨2025, 1, 3, 23, 59, 59, 999999⟩ = 1 / 2 ∧
    calculate_total_consumption_float dataC8fl ⟨2025, 1, 1, 0, 0, 0, 0⟩
        ⟨2025, 1, 3, 23, 59, 59, 999999⟩ = 5404319552844596 / 9007199254740992 ∧
    floatAdd dbl01 (1 / 2) = 5404319552844595 / 9007199254740992 ∧
    floatAdd
        (calculate_total_consumption_float dataC8fl ⟨2025, 1, 1, 0, 0, 0, 0⟩
          ⟨2025, 1, 1, 23, 59, 59, 999999⟩)
        (calculate_total_consumption_float dataC8fl ⟨2025, 1, 2, 0, 0, 0, 0⟩
          ⟨2025, 1, 3, 23, 59, 59, 999999⟩)
      ≠ calculate_total_consumption_float dataC8fl ⟨2025, 1, 1, 0, 0, 0, 0⟩
          ⟨2025, 1, 3, 23, 59, 59, 999999⟩ ∧
    calculate_total_consumption_float dataC8fl ⟨2025, 1, 1, 0, 0, 0, 0⟩
          ⟨2025, 1, 1, 23, 59, 59, 999999⟩
        + calculate_total_consumption_float dataC8fl ⟨2025, 1, 2, 0, 0, 0, 0⟩
          ⟨2025, 1, 3, 23, 59, 59, 999999⟩
      ≠ calculate_total_consumption_float dataC8fl ⟨2025, 1, 1, 0, 0, 0, 0⟩
          ⟨2025, 1, 3, 23, 59, 59, 999999⟩ ∧
    floatAdd
        (calculate_total_production_float dataC8fl ⟨2025, 1, 1, 0, 0, 0, 0⟩
          ⟨2025, 1, 1, 23, 59, 59, 999999⟩)
        (calculate_total_production_float dataC8fl ⟨2025, 1, 2, 0, 0, 0, 0⟩
          ⟨2025, 1, 3, 23, 59, 59, 999999⟩)
      ≠ calculate_total_production_float dataC8fl ⟨2025, 1, 1, 0, 0, 0, 0⟩
          ⟨2025, 1, 3, 23, 59, 59, 999999⟩ ∧
    calculate_total_production_float dataC8fl ⟨2025, 1, 1, 0, 0, 0, 0⟩
          ⟨2025, 1, 1, 23, 59, 59, 999999⟩
        + calculate_total_production_float dataC8fl ⟨2025, 1, 2, 0, 0, 0, 0⟩
          ⟨2025, 1, 3, 23, 59, 59, 999999⟩
      ≠ calculate_total_production_float dataC8fl ⟨2025, 1, 1, 0, 0, 0, 0⟩
          ⟨2025, 1, 3, 23, 59, 59, 999999⟩ := by
  decide

/-! Claim C1: the end-to-end daily-report scenario. -/

unseal Rat.add Rat.mul Rat.inv Rat.sub in
/-- Claim C1 (confirmed): for the three-reading dataset, the daily report for
the range 01.01.2025 to 01.01.2025 renders its three body values as the
literal strings "3,00 kWh", "1,50 kWh" and "3,00 °C". -/
theorem daily_report_end_to_end :
    create_daily_report dataC1 ["01.01.2025", "01.01.2025"] =
      some (["Daily Report for 01.01.2025 to 01.01.2025",
             "Total Consumption: 3,00 kWh",
             "Total Production: 1,50 kWh",
             "Average Temperature: 3,00 °C"], []) := by
  decide

/-! Claim C3: effect of a malformed numeric field on loading. -/

/-- Reaching a structurally broken data line (valid timestamp, but
`convert_electricity_data` fails) makes the whole load return the empty
dataset, whatever was accumulated before. -/
theorem fetchAux_abort :
    ∀ (lines : List String) (acc : List Reading),
      (∃ line ∈ lines,
        (parseIso ((splitSemi line).getD 0 "")).isSome = true ∧
        convert_electricity_data (splitSemi line) = none) →
      fetchAux lines acc = [] := by
  intro lines
  induction lines with
  | nil =>
    intro acc h
    obtain ⟨line, hmem, _⟩ := h
    cases hmem
  | cons l rest ih =>
    intro acc h
    obtain ⟨line, hmem, hts, hconv⟩ := h
    show fetchAux (l :: rest) acc = []
    rw [fetchAux]
    rcases List.mem_cons.mp hmem with heq | hmemr
    · subst heq
      obtain ⟨t, ht⟩ := Option.isSome_iff_exists.mp hts
      rw [ht, hconv]
    · cases hl : parseIso ((splitSemi l).getD 0 "") with
      | none => exact ih acc ⟨line, hmemr, hts, hconv⟩
      | some t =>
        cases hc : convert_electricity_data (splitSemi l) with
        | none => rfl
        | some r => exact ih (acc ++ [r]) ⟨line, hmemr, hts, hconv⟩

unseal Rat.add Rat.mul Rat.inv Rat.sub in
/-- Counterexample to claim C3 as stated: in this four-line file the third
line has a valid ISO timestamp but the malformed numeric field "oops", and
the load returns the empty dataset, although the fourth line is structurally
valid (its conversion succeeds on its own).  The valid line is therefore not
present in the returned dataset. -/
theorem fetch_malformed_numeric_drops_everything :
    fetch_electricity_data
      ["timestamp;consumption;production;temperature",
       "2025-01-01T00:00:00;1,5;2,0;3,0",
       "2025-01-01T01:00:00;oops;2,0;3,0",
       "2025-01-01T02:00:00;1,0;2,0;3,0"] = [] ∧
    convert_electricity_data (splitSemi "2025-01-01T02:00:00;1,0;2,0;3,0") =
      some ⟨⟨2025, 1, 1, 2, 0, 0, 0⟩, 1, 2, 3⟩ := by
  constructor
  · decide
  · decide

/-- Claim C3 amended: a data line whose first field parses as an ISO
timestamp but whose conversion fails (malformed numeric field) aborts the
whole load via the outer catch-all handler — `fetch_electricity_data`
returns the empty dataset, so no other line survives (policy (b), not
(a)). -/
theorem fetch_malformed_numeric_aborts_load :
    ∀ (lines : List String),
      (∃ line ∈ lines,
        (parseIso ((splitSemi line).getD 0 "")).isSome = true ∧
        convert_electricity_data (splitSemi line) = none) →
      fetch_electricity_data lines = [] := by
  intro lines h
  exact fetchAux_abort lines [] h

/-- Witness for the amended C3 theorem at a concrete file. -/
theorem fetch_malformed_numeric_aborts_load_witness :
    (∃ line ∈ ["2025-01-01T01:00:00;oops;2,0;3,0",
               "2025-01-01T02:00:00;1,0;2,0;3,0"],
        (parseIso ((splitSemi line).getD 0 "")).isSome = true ∧
        convert_electricity_data (splitSemi line) = none) ∧
    fetch_electricity_data
      ["2025-01-01T01:00:00;oops;2,0;3,0",
       "2025-01-01T02:00:00;1,0;2,0;3,0"] = [] :=
  ⟨by decide,
   fetch_malformed_numeric_aborts_load
     ["2025-01-01T01:00:00;oops;2,0;3,0", "2025-01-01T02:00:00;1,0;2,0;3,0"]
     (by decide)⟩

/-! Claim C10: the dataset shape and extra input fields. -/

unseal Rat.add Rat.mul Rat.inv Rat.sub in
/-- Claim C10 (confirmed): `convert_electricity_data` reads only the first
four fields, so a line carrying extra semicolon-separated fields is
converted exactly as without them (first conjunct); concretely, a six-field
line with a valid timestamp is accepted and loads as the four-field record
built from its first four fields (second conjunct). -/
theorem convert_ignores_extra_fields :
    (∀ (fields extras : List String), 4 ≤ fields.length →
      convert_electricity_data (fields ++ extras) = convert_electricity_data fields) ∧
    fetch_electricity_data ["2025-01-01T00:00:00;1,0;2,0;3,0;9,9;note"] =
      [⟨⟨2025, 1, 1, 0, 0, 0, 0⟩, 1, 2, 3⟩] := by
  constructor
  · intro fields extras h
    unfold convert_electricity_data
    rw [List.getElem?_append_left (by omega), List.getElem?_append_left (by omega),
        List.getElem?_append_left (by omega), List.getElem?_append_left (by omega)]
  · decide

/-- Witness for C10 at a concrete six-field line. -/
theorem convert_ignores_extra_fields_witness :
    4 ≤ (["2025-01-01T00:00:00", "1,0", "2,0", "3,0"] : List String).length ∧
    convert_electricity_data
        (["2025-01-01T00:00:00", "1,0", "2,0", "3,0"] ++ ["9,9", "note"]) =
      convert_electricity_data ["2025-01-01T00:00:00", "1,0", "2,0", "3,0"] :=
  ⟨by decide,
   convert_ignores_extra_fields.1 ["2025-01-01T00:00:00", "1,0", "2,0", "3,0"]
     ["9,9", "note"] (by decide)⟩

/-! Claim C5: the monthly report range and the hardcoded year. -/

unseal Rat.add Rat.mul Rat.inv Rat.sub in
/-- Claim C5 (code bug): `create_monthly_report` hardcodes year 2025, so the
month-2 range is always 01.02.2025-28.02.2025 (28 days) regardless of the
dataset's year.  Concretely, for a dataset consisting of one reading on
29.02.2024 (a leap year), the month-2 report aggregates over February 2025
and reports all zeroes, although the days-in-month rule itself gives 29 days
for February 2024 (third conjunct) — the code never applies it to any year
but 2025 (fourth conjunct). -/
theorem monthly_report_hardcodes_2025 :
    create_monthly_report [⟨⟨2024, 2, 29, 12, 0, 0, 0⟩, 5, 5, 5⟩] ["2"] =
      some (["Monthly Report for February",
             "Total Consumption: 0,00 kWh",
             "Total Production: 0,00 kWh",
             "Average Temperature: 0,00 °C"], []) ∧
    monthly_report_range 2 =
      (⟨2025, 2, 1, 0, 0, 0, 0⟩, ⟨2025, 2, 28, 23, 59, 59, 999999⟩) ∧
    monthrangeDays 2024 2 = 29 ∧
    monthrangeDays 2025 2 = 28 := by
  refine ⟨by decide, by decide, by decide, by decide⟩

/-! Claim C7: empty dataset at startup. -/

/-- Claim C7 (confirmed): when the initial load yields an empty dataset, the
session prints only the terminal no-data message and stops — the main menu
is never displayed (no `Main Menu:` header in the output) and the
filesystem is untouched, whatever the user would have typed. -/
theorem main_empty_dataset_no_menu :
    ∀ (fileLines inputs : List String) (fs : FS) (writeOk : Bool),
      fetch_electricity_data fileLines = [] →
      mainSession fileLines writeOk inputs fs =
        (["No data available to generate reports."], fs, false) ∧
      mainMenuHeader ∉ (mainSession fileLines writeOk inputs fs).1 := by
  intro fileLines inputs fs writeOk h
  have hm : mainSession fileLines writeOk inputs fs =
      (["No data available to generate reports."], fs, false) := by
    unfold mainSession
    rw [h]
    rfl
  refine ⟨hm, ?_⟩
  rw [hm]
  show mainMenuHeader ∉ ["No data available to generate reports."]
  decide

/-- Witness for C7: a file whose only line is not a data line loads as the
empty dataset, and the session stops before the menu. -/
theorem main_empty_dataset_no_menu_witness :
    fetch_electricity_data ["timestamp;consumption;production;temperature"] = [] ∧
    mainSession ["timestamp;consumption;production;temperature"] true ["1"] [] =
      (["No data available to generate reports."], [], false) :=
  ⟨by decide,
   (main_empty_dataset_no_menu ["timestamp;consumption;production;temperature"]
     ["1"] [] true (by decide)).1⟩

/-! Claim C4: IOError during a report write. -/

/-- Counterexample to claim C4 as stated: with the `report.txt` write
failing (IOError), selecting option 1 in the report output menu does not
return control to the session — the crash flag is set (the exception
propagates uncaught, terminating the process), so no retry through the menu
is possible, contradicting the claimed recovery. -/
theorem report_write_ioerror_crashes :
    show_report_menu false ["Report body"] ["1"] [] = ([], [], true) := by
  decide

/-- Claim C4 amended: an IOError during the `report.txt` write escapes
`show_report_menu` uncaught (crash flag set), with the filesystem left
unchanged by the failed attempt; only when the write succeeds does the menu
return normally, having stored exactly the in-memory report lines. -/
theorem report_write_ioerror_propagates :
    ∀ (lines rest : List String) (fs : FS),
      show_report_menu false lines ("1" :: rest) fs = (fs, rest, true) ∧
      show_report_menu true lines ("1" :: rest) fs =
        (write_report_to_file fs lines, rest, false) := by
  intro lines rest fs
  constructor <;> rfl

/-! Claim C9: ordering of report ranges. -/

/-- A date accepted by the `%d.%m.%Y` prompt parser is a midnight datetime:
all four time-of-day fields are zero. -/
theorem parse_ddmmyyyy_time_fields (s : String) (t : DateTime) :
    parse_ddmmyyyy s = some t →
      t.hour = 0 ∧ t.minute = 0 ∧ t.second = 0 ∧ t.microsecond = 0 := by
  intro h
  unfold parse_ddmmyyyy at h
  repeat split at h
  all_goals simp_all
  subst h
  simp

/-- The end-of-day adjustment adds exactly the day-interior offset to the
key of a midnight datetime. -/
theorem atEndOfDay_key_of_midnight (t : DateTime)
    (h : t.hour = 0 ∧ t.minute = 0 ∧ t.second = 0 ∧ t.microsecond = 0) :
    (atEndOfDay t).key = t.key + 86399999999 := by
  obtain ⟨h1, h2, h3, h4⟩ := h
  simp only [atEndOfDay, DateTime.key, h1, h2, h3, h4]
  ring

/-- Counterexample to claim C9 as stated: the daily prompts accept
02.01.2025 followed by 01.01.2025 (no order validation), and the resulting
range has its start bound strictly after its end bound. -/
theorem daily_range_reversed_dates :
    daily_report_range ["02.01.2025", "01.01.2025"] =
      some (⟨2025, 1, 2, 0, 0, 0, 0⟩, ⟨2025, 1, 1, 23, 59, 59, 999999⟩) ∧
    DateTime.le ⟨2025, 1, 2, 0, 0, 0, 0⟩ ⟨2025, 1, 1, 23, 59, 59, 999999⟩ = false := by
  constructor <;> decide

/-- Claim C9 amended: a daily range satisfies `start <= end` whenever the
accepted start date is not after the accepted end date (the prompts do not
enforce this order, so a reversed pair yields a reversed range); the
monthly and yearly ranges always satisfy `start <= end`. -/
theorem report_ranges_ordered :
    (∀ (s1 s2 : String) (d1 d2 : DateTime),
      parse_ddmmyyyy s1 = some d1 → parse_ddmmyyyy s2 = some d2 →
      d1.key ≤ d2.key → DateTime.le d1 (atEndOfDay d2) = true) ∧
    (∀ m : ℕ, 1 ≤ m → m ≤ 12 →
      DateTime.le (monthly_report_range m).1 (monthly_report_range m).2 = true) ∧
    DateTime.le yearly_report_range.1 yearly_report_range.2 = true := by
  refine ⟨?_, ?_, by decide⟩
  · intro s1 s2 d1 d2 h1 h2 hle
    rw [DateTime.le_iff, atEndOfDay_key_of_midnight d2 (parse_ddmmyyyy_time_fields s2 d2 h2)]
    omega
  · intro m hm1 hm2
    interval_cases m <;> decide

/-- Witness for the amended C9 theorem at concrete accepted dates and a
concrete month. -/
theorem report_ranges_ordered_witness :
    parse_ddmmyyyy "01.01.2025" = some ⟨2025, 1, 1, 0, 0, 0, 0⟩ ∧
    parse_ddmmyyyy "02.01.2025" = some ⟨2025, 1, 2, 0, 0, 0, 0⟩ ∧
    (⟨2025, 1, 1, 0, 0, 0, 0⟩ : DateTime).key ≤ (⟨2025, 1, 2, 0, 0, 0, 0⟩ : DateTime).key ∧
    DateTime.le ⟨2025, 1, 1, 0, 0, 0, 0⟩ (atEndOfDay ⟨2025, 1, 2, 0, 0, 0, 0⟩) = true ∧
    DateTime.le (monthly_report_range 2).1 (monthly_report_range 2).2 = true :=
  ⟨by decide, by decide, by decide,
   report_ranges_ordered.1 "01.01.2025" "02.01.2025" _ _ (by decide) (by decide) (by decide),
   report_ranges_ordered.2.1 2 (by decide) (by decide)⟩

/-! Claim C6: the auto-numbered report sink.  The supporting lemmas show the
decimal filenames are pairwise distinct, so a free index always exists among
the first `fs.length + 1` candidates and the scan's fuel bound is never the
limiting factor. -/

theorem natDigitsAux_lt_ten : ∀ (fuel n : ℕ), ∀ d ∈ natDigitsAux fuel n, d < 10 := by
  intro fuel
  induction fuel with
  | zero => intro n d hd; simp [natDigitsAux] at hd
  | succ f ih =>
    intro n d hd
    rw [natDigitsAux] at hd
    by_cases hn : n = 0
    · simp [hn] at hd
    · rw [if_neg hn] at hd
      rcases List.mem_cons.mp hd with h | h
      · omega
      · exact ih (n / 10) d h

theorem ofDigitsLE_natDigitsAux : ∀ (fuel n : ℕ), n ≤ fuel →
    ofDigitsLE (natDigitsAux fuel n) = n := by
  intro fuel
  induction fuel with
  | zero =>
    intro n h
    have hn : n = 0 := by omega
    subst hn
    rfl
  | succ f ih =>
    intro n h
    rw [natDigitsAux]
    by_cases hn : n = 0
    · subst hn; rfl
    · rw [if_neg hn, ofDigitsLE, ih (n / 10) (by omega)]
      omega

theorem digitChar_inj : ∀ d1 < 10, ∀ d2 < 10,
    Char.ofNat (48 + d1) = Char.ofNat (48 + d2) → d1 = d2 := by
  decide

theorem map_digitChar_inj : ∀ (l1 l2 : List ℕ), (∀ d ∈ l1, d < 10) → (∀ d ∈ l2, d < 10) →
    l1.map (fun d => Char.ofNat (48 + d)) = l2.map (fun d => Char.ofNat (48 + d)) →
    l1 = l2 := by
  intro l1
  induction l1 with
  | nil =>
    intro l2 _ _ h
    cases l2 with
    | nil => rfl
    | cons b t2 => simp at h
  | cons a t ih =>
    intro l2 h1 h2 h
    cases l2 with
    | nil => simp at h
    | cons b t2 =>
      simp only [List.map_cons, List.cons.injEq] at h
      obtain ⟨hh, ht⟩ := h
      have hab : a = b :=
        digitChar_inj a (h1 a (List.mem_cons_self a t)) b (h2 b (List.mem_cons_self b t2)) hh
      subst hab
      rw [ih t2 (fun d hd => h1 d (List.mem_cons_of_mem a hd))
        (fun d hd => h2 d (List.mem_cons_of_mem a hd)) ht]

theorem natRepr_injective : Function.Injective natRepr := by
  intro a b h
  unfold natRepr at h
  by_cases ha : a = 0 <;> by_cases hb : b = 0
  · omega
  · exfalso
    rw [if_pos ha, if_neg hb] at h
    have hd : ([0] : List ℕ).map (fun d => Char.ofNat (48 + d)) =
        (natDigitsAux b b).reverse.map (fun d => Char.ofNat (48 + d)) :=
      congrArg String.data h
    have hl : ([0] : List ℕ) = (natDigitsAux b b).reverse :=
      map_digitChar_inj _ _ (by decide)
        (fun d hd => natDigitsAux_lt_ten b b d (List.mem_reverse.mp hd)) hd
    have hdig : natDigitsAux b b = [0] := by
      have := congrArg List.reverse hl
      simpa using this.symm
    have := ofDigitsLE_natDigitsAux b b le_rfl
    rw [hdig] at this
    simp [ofDigitsLE] at this
    omega
  · exfalso
    rw [if_neg ha, if_pos hb] at h
    have hd : (natDigitsAux a a).reverse.map (fun d => Char.ofNat (48 + d)) =
        ([0] : List ℕ).map (fun d => Char.ofNat (48 + d)) :=
      congrArg String.data h
    have hl : (natDigitsAux a a).reverse = ([0] : List ℕ) :=
      map_digitChar_inj _ _
        (fun d hd => natDigitsAux_lt_ten a a d (List.mem_reverse.mp hd)) (by decide) hd
    have hdig : natDigitsAux a a = [0] := by
      have := congrArg List.reverse hl
      simpa using this
    have := ofDigitsLE_natDigitsAux a a le_rfl
    rw [hdig] at this
    simp [ofDigitsLE] at this
    omega
  · rw [if_neg ha, if_neg hb] at h
    have hd : (natDigitsAux a a).reverse.map (fun d => Char.ofNat (48 + d)) =
        (natDigitsAux b b).reverse.map (fun d => Char.ofNat (48 + d)) :=
      congrArg String.data h
    have hl := map_digitChar_inj _ _
      (fun d hd => natDigitsAux_lt_ten a a d (List.mem_reverse.mp hd))
      (fun d hd => natDigitsAux_lt_ten b b d (List.mem_reverse.mp hd)) hd
    have hdig : natDigitsAux a a = natDigitsAux b b := List.reverse_injective hl
    have h1 := ofDigitsLE_natDigitsAux a a le_rfl
    have h2 := ofDigitsLE_natDigitsAux b b le_rfl
    rw [hdig, h2] at h1
    omega

theorem reportFileName_injective : Function.Injective reportFileName := by
  intro a b h
  unfold reportFileName at h
  have hd : "report_".data ++ (natRepr a).data ++ ".txt".data =
      "report_".data ++ (natRepr b).data ++ ".txt".data := by
    have := congrArg String.data h
    simpa [String.data_append] using this
  have h1 : (natRepr a).data ++ ".txt".data = (natRepr b).data ++ ".txt".data := by
    rw [List.append_assoc, List.append_assoc] at hd
    exact List.append_cancel_left hd
  have h2 : (natRepr a).data = (natRepr b).data := List.append_cancel_right h1
  have h3 : natRepr a = natRepr b := by
    cases hra : natRepr a with
    | mk la =>
      cases hrb : natRepr b with
      | mk lb =>
        rw [hra, hrb] at h2
        simp only at h2
        rw [h2]
  exact natRepr_injective h3

theorem fileExists_iff_mem (fs : FS) (name : String) :
    fileExists fs name = true ↔ name ∈ fs.map Prod.fst := by
  simp [fileExists, List.any_eq_true, List.mem_map]

/-- Pigeonhole: the candidate filenames are pairwise distinct, so among the
first `fs.length + 1` indices one names a nonexistent file. -/
theorem exists_free_report_index (fs : FS) :
    ∃ k, 1 ≤ k ∧ k ≤ fs.length + 1 ∧ fileExists fs (reportFileName k) = false := by
  by_contra hcon
  push_neg at hcon
  have hmem : ∀ k ∈ Finset.Icc 1 (fs.length + 1), reportFileName k ∈ fs.map Prod.fst := by
    intro k hk
    rw [Finset.mem_Icc] at hk
    have hne := hcon k hk.1 hk.2
    have ht : fileExists fs (reportFileName k) = true := by
      cases hx : fileExists fs (reportFileName k)
      · exact absurd hx hne
      · rfl
    exact (fileExists_iff_mem fs _).mp ht
  have hsub : (Finset.Icc 1 (fs.length + 1)).image reportFileName ⊆
      (fs.map Prod.fst).toFinset := by
    intro x hx
    rw [Finset.mem_image] at hx
    obtain ⟨k, hk, rfl⟩ := hx
    rw [List.mem_toFinset]
    exact hmem k hk
  have hcard1 : ((Finset.Icc 1 (fs.length + 1)).image reportFileName).card =
      fs.length + 1 := by
    rw [Finset.card_image_of_injective _ reportFileName_injective, Nat.card_Icc]
    omega
  have hcard2 := Finset.card_le_card hsub
  have hcard3 := List.toFinset_card_le (l := fs.map Prod.fst)
  rw [hcard1] at hcard2
  rw [List.length_map] at hcard3
  omega

/-- The scan returns a free index, at least its starting counter, and every
index it skipped names an existing file — provided a free index lies within
its fuel window. -/
theorem firstFreeReport_spec (fs : FS) : ∀ (fuel counter : ℕ),
    (∃ k, counter ≤ k ∧ k < counter + fuel ∧ fileExists fs (reportFileName k) = false) →
    fileExists fs (reportFileName (firstFreeReport fs counter fuel)) = false ∧
    counter ≤ firstFreeReport fs counter fuel ∧
    ∀ m, counter ≤ m → m < firstFreeReport fs counter fuel →
      fileExists fs (reportFileName m) = true := by
  intro fuel
  induction fuel with
  | zero =>
    intro counter h
    obtain ⟨k, h1, h2, _⟩ := h
    omega
  | succ f ih =>
    intro counter h
    obtain ⟨k, h1, h2, h3⟩ := h
    by_cases hc : fileExists fs (reportFileName counter) = true
    · rw [firstFreeReport, if_pos hc]
      have hk : k ≠ counter := by
        intro he
        rw [he] at h3
        simp [h3] at hc
      obtain ⟨s1, s2, s3⟩ := ih (counter + 1) ⟨k, by omega, by omega, h3⟩
      refine ⟨s1, by omega, ?_⟩
      intro m hm1 hm2
      by_cases hmc : m = counter
      · rw [hmc]; exact hc
      · exact s3 m (by omega) hm2
    · have hcf : fileExists fs (reportFileName counter) = false := by
        cases hx : fileExists fs (reportFileName counter)
        · rfl
        · exact absurd hx hc
      rw [firstFreeReport, if_neg hc]
      exact ⟨hcf, le_rfl, fun m hm1 hm2 => absurd (lt_of_le_of_lt hm1 hm2) (lt_irrefl _)⟩

theorem firstFreeReport_step_taken (fs : FS) (c f : ℕ)
    (h : fileExists fs (reportFileName c) = true) :
    firstFreeReport fs c (f + 1) = firstFreeReport fs (c + 1) f := by
  rw [firstFreeReport, if_pos h]

theorem firstFreeReport_step_free (fs : FS) (c f : ℕ)
    (h : fileExists fs (reportFileName c) = false) :
    firstFreeReport fs c (f + 1) = c := by
  rw [firstFreeReport, if_neg (by rw [h]; exact Bool.false_ne_true)]

/-- Writing to a fresh name appends: the new file holds the written lines
and every existing file keeps its contents. -/
theorem getFile_setFile_fresh (fs : FS) (name : String) (lines : List String)
    (hfree : fileExists fs name = false) :
    getFile (setFile fs name lines) name = some lines ∧
    ∀ f c, getFile fs f = some c → getFile (setFile fs name lines) f = some c := by
  have hset : setFile fs name lines = fs ++ [(name, lines)] := by
    rw [setFile, if_neg (by rw [hfree]; exact Bool.false_ne_true)]
  have hnone : fs.find? (fun p => p.1 == name) = none := by
    rw [List.find?_eq_none]
    intro p hp
    intro hpeq
    have : fileExists fs name = true := by
      rw [fileExists, List.any_eq_true]
      exact ⟨p, hp, hpeq⟩
    rw [hfree] at this
    cases this
  constructor
  · rw [hset, getFile, List.find?_append, hnone]
    simp [List.find?]
  · intro f c hf
    rw [getFile] at hf
    obtain ⟨p, hp, hpc⟩ := Option.map_eq_some'.mp hf
    rw [hset, getFile, List.find?_append, hp]
    simp [hpc]

/-- Claim C6 (confirmed): in new-file mode the sink writes to
`report_<n>.txt` for the smallest `n >= 1` whose file does not exist (first
conjunct: the chosen name is free, the index is at least 1, and every
smaller index from 1 names an existing file), never overwrites (the chosen
name did not exist, the write appends, and every existing file keeps its
contents), and from a state with no `report_<k>.txt` files two writes in
sequence produce `report_1.txt` then `report_2.txt` (second conjunct). -/
theorem create_report_file_never_overwrites :
    (∀ (fs : FS) (lines : List String),
      (create_report_file fs lines).2 =
          reportFileName (firstFreeReport fs 1 (fs.length + 1)) ∧
      1 ≤ firstFreeReport fs 1 (fs.length + 1) ∧
      fileExists fs ((create_report_file fs lines).2) = false ∧
      (∀ m, 1 ≤ m → m < firstFreeReport fs 1 (fs.length + 1) →
        fileExists fs (reportFileName m) = true) ∧
      getFile (create_report_file fs lines).1 ((create_report_file fs lines).2) =
          some lines ∧
      (∀ f c, getFile fs f = some c →
        getFile (create_report_file fs lines).1 f = some c)) ∧
    (∀ (fs : FS) (l1 l2 : List String),
      (∀ k, fileExists fs (reportFileName k) = false) →
      (create_report_file fs l1).2 = "report_1.txt" ∧
      (create_report_file (create_report_file fs l1).1 l2).2 = "report_2.txt") := by
  constructor
  · intro fs lines
    obtain ⟨k, hk1, hk2, hk3⟩ := exists_free_report_index fs
    obtain ⟨s1, s2, s3⟩ :=
      firstFreeReport_spec fs (fs.length + 1) 1 ⟨k, by omega, by omega, hk3⟩
    have hname : (create_report_file fs lines).2 =
        reportFileName (firstFreeReport fs 1 (fs.length + 1)) := rfl
    have hfs : (create_report_file fs lines).1 =
        setFile fs (reportFileName (firstFreeReport fs 1 (fs.length + 1))) lines := rfl
    obtain ⟨g1, g2⟩ := getFile_setFile_fresh fs
      (reportFileName (firstFreeReport fs 1 (fs.length + 1))) lines s1
    refine ⟨hname, s2, ?_, s3, ?_, ?_⟩
    · rw [hname]; exact s1
    · rw [hname, hfs]; exact g1
    · intro f c hf; rw [hfs]; exact g2 f c hf
  · intro fs l1 l2 h
    have hn1 : firstFreeReport fs 1 (fs.length + 1) = 1 :=
      firstFreeReport_step_free fs 1 fs.length (h 1)
    have hname1 : (create_report_file fs l1).2 = "report_1.txt" := by
      show reportFileName (firstFreeReport fs 1 (fs.length + 1)) = "report_1.txt"
      rw [hn1]
      decide
    refine ⟨hname1, ?_⟩
    have hfs1 : (create_report_file fs l1).1 = fs ++ [(reportFileName 1, l1)] := by
      show setFile fs (reportFileName (firstFreeReport fs 1 (fs.length + 1))) l1 = _
      rw [hn1, setFile, if_neg (by rw [h 1]; exact Bool.false_ne_true)]
    have hlen1 : (create_report_file fs l1).1.length = fs.length + 1 := by
      rw [hfs1, List.length_append]
      rfl
    have hex1 : fileExists (create_report_file fs l1).1 (reportFileName 1) = true := by
      rw [hfs1, fileExists, List.any_append]
      simp [List.any_cons]
    have hex2 : fileExists (create_report_file fs l1).1 (reportFileName 2) = false := by
      rw [hfs1, fileExists, List.any_append]
      have ha : fs.any (fun p => p.1 == reportFileName 2) = false := h 2
      have hb2 : List.any [(reportFileName 1, l1)] (fun p => p.1 == reportFileName 2)
          = false := by
        simp only [List.any_cons, List.any_nil, Bool.or_false]
        decide
      rw [ha, hb2]
      rfl
    show reportFileName
        (firstFreeReport (create_report_file fs l1).1 1
          ((create_report_file fs l1).1.length + 1)) = "report_2.txt"
    rw [hlen1, firstFreeReport_step_taken (create_report_file fs l1).1 1
          (fs.length + 1) hex1,
        firstFreeReport_step_free (create_report_file fs l1).1 2 fs.length hex2]
    decide

/-- Witness for C6: both conjuncts applied at the empty filesystem. -/
theorem create_report_file_never_overwrites_witness :
    (∀ k, fileExists ([] : FS) (reportFileName k) = false) ∧
    (create_report_file [] ["line one"]).2 = "report_1.txt" ∧
    (create_report_file (create_report_file [] ["line one"]).1 ["line two"]).2 =
      "report_2.txt" ∧
    getFile (create_report_file [] ["line one"]).1
        ((create_report_file [] ["line one"]).2) = some ["line one"] :=
  ⟨fun _ => rfl,
   (create_report_file_never_overwrites.2 [] ["line one"] ["line two"]
     (fun _ => rfl)).1,
   (create_report_file_never_overwrites.2 [] ["line one"] ["line two"]
     (fun _ => rfl)).2,
   (create_report_file_never_overwrites.1 [] ["line one"]).2.2.2.2.1⟩

unseal Rat.add Rat.mul Rat.inv Rat.sub in
/-- Witness for C2 at a concrete dataset and a concrete range (all of 2026)
matching none of its readings. -/
theorem aggregate_empty_range_witness :
    (∀ r ∈ dataC1, in_range ⟨2026, 1, 1, 0, 0, 0, 0⟩ ⟨2026, 12, 31, 23, 59, 59, 999999⟩
        r.timestamp = false) ∧
    calculate_total_consumption dataC1 ⟨2026, 1, 1, 0, 0, 0, 0⟩
        ⟨2026, 12, 31, 23, 59, 59, 999999⟩ = 0 ∧
    calculate_total_production dataC1 ⟨2026, 1, 1, 0, 0, 0, 0⟩
        ⟨2026, 12, 31, 23, 59, 59, 999999⟩ = 0 ∧
    calculate_average_temperature dataC1 ⟨2026, 1, 1, 0, 0, 0, 0⟩
        ⟨2026, 12, 31, 23, 59, 59, 999999⟩ = 0 :=
  ⟨by decide,
   aggregate_empty_range dataC1 ⟨2026, 1, 1, 0, 0, 0, 0⟩
     ⟨2026, 12, 31, 23, 59, 59, 999999⟩ (by decide)⟩

unseal Rat.add Rat.mul Rat.inv Rat.sub in
/-- Witness for C8: the two-day range 01.01.2025-02.01.2025 split at the day
boundary, on a concrete dataset. -/
theorem aggregate_totals_additive_witness :
    (∀ r ∈ dataC1,
      in_range ⟨2025, 1, 1, 0, 0, 0, 0⟩ ⟨2025, 1, 2, 23, 59, 59, 999999⟩ r.timestamp
          = (in_range ⟨2025, 1, 1, 0, 0, 0, 0⟩ ⟨2025, 1, 1, 23, 59, 59, 999999⟩ r.timestamp
              || in_range ⟨2025, 1, 2, 0, 0, 0, 0⟩ ⟨2025, 1, 2, 23, 59, 59, 999999⟩
                  r.timestamp) ∧
        (in_range ⟨2025, 1, 1, 0, 0, 0, 0⟩ ⟨2025, 1, 1, 23, 59, 59, 999999⟩ r.timestamp
            && in_range ⟨2025, 1, 2, 0, 0, 0, 0⟩ ⟨2025, 1, 2, 23, 59, 59, 999999⟩
                r.timestamp) = false) ∧
    calculate_total_consumption dataC1 ⟨2025, 1, 1, 0, 0, 0, 0⟩
          ⟨2025, 1, 1, 23, 59, 59, 999999⟩
        + calculate_total_consumption dataC1 ⟨2025, 1, 2, 0, 0, 0, 0⟩
          ⟨2025, 1, 2, 23, 59, 59, 999999⟩
      = calculate_total_consumption dataC1 ⟨2025, 1, 1, 0, 0, 0, 0⟩
          ⟨2025, 1, 2, 23, 59, 59, 999999⟩ ∧
    calculate_total_production dataC1 ⟨2025, 1, 1, 0, 0, 0, 0⟩
          ⟨2025, 1, 1, 23, 59, 59, 999999⟩
        + calculate_total_production dataC1 ⟨2025, 1, 2, 0, 0, 0, 0⟩
          ⟨2025, 1, 2, 23, 59, 59, 999999⟩
      = calculate_total_production dataC1 ⟨2025, 1, 1, 0, 0, 0, 0⟩
          ⟨2025, 1, 2, 23, 59, 59, 999999⟩ :=
  ⟨by decide,
   aggregate_totals_additive dataC1 ⟨2025, 1, 1, 0, 0, 0, 0⟩
     ⟨2025, 1, 2, 23, 59, 59, 999999⟩ ⟨2025, 1, 1, 0, 0, 0, 0⟩
     ⟨2025, 1, 1, 23, 59, 59, 999999⟩ ⟨2025, 1, 2, 0, 0, 0, 0⟩
     ⟨2025, 1, 2, 23, 59, 59, 999999⟩ (by decide)⟩
